import Mathlib

/-!
Shallow embedding of the rpi-sailing-performance repository
(`polars.py`, `sailing_efficiency.py`) and proofs about it.

Numeric values (Python floats) are modelled as exact rationals `ℚ`;
byte values as `ℕ`.  Definitions come first, theorems afterwards.
-/

namespace Polars

/-- The `(tws, twa)` coordinates of the scattered sample points built by
`BoatPerformance._build_model` in `polars.py`: for each column wind speed
`tws ∈ tws_cols = [4, 6, 8, 10, 12, 14, 16, 20, 24]`, the beat angle, the
0-angle boundary, the eight fixed angles 52, 60, 75, 90, 110, 120, 135, 150,
the gybe angle, and the 180-angle boundary.  The interpolated *values*
attached to these points involve cosines and are irrelevant to the claims
about the query domain, so only the coordinates are recorded. -/
def polarPoints : List (ℚ × ℚ) :=
  [ (4, 42.1), (4, 0), (4, 52), (4, 60), (4, 75), (4, 90), (4, 110), (4, 120),
    (4, 135), (4, 150), (4, 144.2), (4, 180),
    (6, 42.1), (6, 0), (6, 52), (6, 60), (6, 75), (6, 90), (6, 110), (6, 120),
    (6, 135), (6, 150), (6, 144.2), (6, 180),
    (8, 40.4), (8, 0), (8, 52), (8, 60), (8, 75), (8, 90), (8, 110), (8, 120),
    (8, 135), (8, 150), (8, 148.0), (8, 180),
    (10, 39.8), (10, 0), (10, 52), (10, 60), (10, 75), (10, 90), (10, 110), (10, 120),
    (10, 135), (10, 150), (10, 149.3), (10, 180),
    (12, 39.6), (12, 0), (12, 52), (12, 60), (12, 75), (12, 90), (12, 110), (12, 120),
    (12, 135), (12, 150), (12, 153.1), (12, 180),
    (14, 39.2), (14, 0), (14, 52), (14, 60), (14, 75), (14, 90), (14, 110), (14, 120),
    (14, 135), (14, 150), (14, 159.0), (14, 180),
    (16, 39.1), (16, 0), (16, 52), (16, 60), (16, 75), (16, 90), (16, 110), (16, 120),
    (16, 135), (16, 150), (16, 163.0), (16, 180),
    (20, 39.7), (20, 0), (20, 52), (20, 60), (20, 75), (20, 90), (20, 110), (20, 120),
    (20, 135), (20, 150), (20, 176.2), (20, 180),
    (24, 41.1), (24, 0), (24, 52), (24, 60), (24, 75), (24, 90), (24, 110), (24, 120),
    (24, 135), (24, 150), (24, 175.9), (24, 180) ]

/-- The triangulated region of the scattered-data interpolator: the convex
hull of the sample point set (a Delaunay triangulation covers exactly the
convex hull of its input points). -/
def triangulatedRegion : Set (ℚ × ℚ) :=
  convexHull ℚ {q | q ∈ polarPoints}

/-- Modelled from the spec: `scipy.interpolate.LinearNDInterpolator` is not
part of this repository.  Per the spec (§4.1), `query(x,y)` "returns the
linear interpolation within the enclosing triangle, or a configured fill
value (here, 0) if (x,y) falls outside the triangulated region (no
extrapolation)".  The interpolation inside the region is left abstract; the
model only fixes the fill behaviour outside the region, with fill value 0 as
passed by `_build_model` (`fill_value=0`). -/
structure LinearNDInterpolatorModel : Type where
  value : ℚ × ℚ → ℚ
  fill_outside : ∀ p, p ∉ triangulatedRegion → value p = 0

/-- A trivially valid interpolator model (identically 0), used to
instantiate universally quantified statements at a concrete model. -/
def zeroInterpolator : LinearNDInterpolatorModel where
  value := fun _ => 0
  fill_outside := fun _ _ => rfl

/-- Angle normalization performed by `BoatPerformance.get_target_speed`:
`twa = abs(twa); if twa > 180: twa = 360 - twa`. -/
def normalizeTwa (twa : ℚ) : ℚ :=
  let t := |twa|
  if 180 < t then 360 - t else t

/-- `BoatPerformance.get_target_speed` from `polars.py`, over a given
interpolator model.  The `pd.isna` guard is unrepresentable over `ℚ`
(which has no NaN); all claims about this function are restricted to
numeric (non-NaN) inputs. -/
def get_target_speed (m : LinearNDInterpolatorModel) (tws twa : ℚ) : ℚ :=
  m.value (tws, normalizeTwa twa)

/-- The value a Python function call evaluates to: either a bare float
(`return 0.0`) or a 2-tuple (`return eff, target`). -/
inductive EffResult : Type where
  | scalar (x : ℚ)
  | pair (eff target : ℚ)
  deriving DecidableEq

/-- `BoatPerformance.calculate_efficiency` from `polars.py`:
if `target <= 0.5`, it returns the bare float `0.0` (not a pair);
otherwise it returns the pair `(min(max(stw/target*100, 0), 125), target)`. -/
def calculate_efficiency (m : LinearNDInterpolatorModel) (tws twa stw : ℚ) :
    EffResult :=
  let target := get_target_speed m tws twa
  if target ≤ 1/2 then EffResult.scalar 0
  else EffResult.pair (min (max (stw / target * 100) 0) 125) target

end Polars

namespace SailingEfficiency

/-- The `SailingData` dataclass from `sailing_efficiency.py`. -/
structure SailingData : Type where
  stw : ℚ := 0
  twa : ℚ := 0
  tws : ℚ := 0
  timestamp : ℚ := 0
  deriving DecidableEq

/-- `NMEA2000Gateway._build_pgn_127489`: the 26-byte PGN 127489 payload.
`load_value = int(min(max(engine_load_percent, 0), 125))`; on the clamped
non-negative value Python's truncating `int()` coincides with the floor.
The two-byte fields are `struct.pack('<H', 0xFFFF) = FF FF`,
`struct.pack('<h', 0x7FFF) = FF 7F`, and
`struct.pack('<I', 0xFFFFFFFF) = FF FF FF FF`. -/
def build_pgn_127489 (engine_load_percent : ℚ) (engine_instance : ℕ) : List ℕ :=
  let load_value : ℕ := (⌊min (max engine_load_percent 0) 125⌋).toNat
  [ engine_instance,                                   -- byte 0: engine instance
    0xFF, 0xFF,                                        -- bytes 1-2: oil pressure N/A
    0xFF, 0xFF,                                        -- bytes 3-4: oil temperature N/A
    0xFF, 0xFF,                                        -- bytes 5-6: engine temperature N/A
    0xFF, 0xFF,                                        -- bytes 7-8: alternator potential N/A
    0xFF, 0x7F,                                        -- bytes 9-10: fuel rate N/A (0x7FFF LE)
    0xFF, 0xFF, 0xFF, 0xFF,                            -- bytes 11-14: engine hours N/A
    0xFF, 0xFF,                                        -- bytes 15-16: coolant pressure N/A
    0xFF, 0xFF,                                        -- bytes 17-18: fuel pressure N/A
    0xFF, 0xFF, 0xFF, 0xFF,                            -- bytes 19-22: reserved
    0x00,                                              -- byte 23: discrete status 1
    load_value,                                        -- byte 24: engine load %
    0x7F ]                                             -- byte 25: engine torque % N/A

/-- The `while offset < total_bytes` loop of
`NMEA2000Gateway._build_fast_packet_frames`: each subsequent frame is
`[seq<<5 | frame_num]` followed by the next (up to) 7 data bytes, padded to
8 bytes with `0xFF`.  The loop advances `offset` by 7 every iteration, so it
runs at most `data.length` times; the structural `fuel` argument (always
instantiated with `data.length`) only bounds the recursion and never runs
out before the loop condition turns false. -/
def subsequentFrames (seq : ℕ) (data : List ℕ) :
    ℕ → ℕ → ℕ → List (List ℕ)
  | 0, _, _ => []
  | fuel + 1, offset, frame_num =>
    if offset < data.length then
      (((seq <<< 5) ||| frame_num) :: (data.drop offset).take 7 ++
          List.replicate (7 - ((data.drop offset).take 7).length) 0xFF)
        :: subsequentFrames seq data fuel (offset + 7) (frame_num + 1)
    else []

/-- `NMEA2000Gateway._build_fast_packet_frames`, with the gateway's
`source_address` and mutable `sequence_counter` passed explicitly; returns
the frame list together with the updated counter.  The first frame is
`[seq<<5 | 0, total_bytes]` followed by the first 6 data bytes (Python's
`frame0[2:8] = data[0:6]`). -/
def build_fast_packet_frames (source_address pgn : ℕ) (data : List ℕ)
    (priority : ℕ) (sequence_counter : ℕ) : List (ℕ × List ℕ) × ℕ :=
  let total_bytes := data.length
  let pf := (pgn >>> 8) &&& 0xFF
  let ps := if 240 ≤ pf then pgn &&& 0xFF else 255
  let dp := (pgn >>> 16) &&& 0x01
  let can_id := ((priority &&& 0x07) <<< 26) ||| (dp <<< 24) ||| (pf <<< 16) |||
      (ps <<< 8) ||| source_address
  let seq := sequence_counter
  let new_counter := (sequence_counter + 1) &&& 0x07
  let frame0 := ((seq <<< 5) ||| 0) :: total_bytes :: data.take 6
  ((can_id, frame0) ::
      (subsequentFrames seq data data.length 6 1).map (fun f => (can_id, f)),
   new_counter)

/-- The sequence value carried by the first frame of one
`_build_fast_packet_frames` call (its first byte shifted back by 5). -/
def sequenceOfCall (source_address pgn : ℕ) (data : List ℕ) (priority : ℕ)
    (sequence_counter : ℕ) : ℕ :=
  match (build_fast_packet_frames source_address pgn data priority
      sequence_counter).1 with
  | [] => 0
  | f :: _ => f.2.headI >>> 5

/-- The sequence values observed over `n` consecutive
`_build_fast_packet_frames` calls starting from a given counter state. -/
def sequenceTrace (source_address pgn : ℕ) (data : List ℕ) (priority : ℕ) :
    ℕ → ℕ → List ℕ
  | 0, _ => []
  | n + 1, c =>
    sequenceOfCall source_address pgn data priority c ::
      sequenceTrace source_address pgn data priority n
        (build_fast_packet_frames source_address pgn data priority c).2

/-- Modelled from the spec (§8, "Frame round-trip"): the decoder implied by
the round-trip property, which is not itself code of the repository.  It
concatenates the first frame's bytes after its two header bytes (sequence
byte and total-length byte) with each subsequent frame's bytes after its one
header byte, truncated to the total length declared in byte 1 of the first
frame. -/
def reassemble (frames : List (List ℕ)) : List ℕ :=
  match frames with
  | [] => []
  | f0 :: rest =>
    (f0.drop 2 ++ (rest.map (fun f => f.drop 1)).flatten).take (f0.getD 1 0)

/-- A Signal K value entry `{"path": ..., "value": ...}`; a missing key is
modelled as `none`. -/
structure SKValue : Type where
  path : Option String
  value : Option ℚ
  deriving DecidableEq

/-- A Signal K update entry; a missing `"values"` key is `update.get('values',
[])`, i.e. the empty list. -/
structure SKUpdate : Type where
  values : List SKValue
  deriving DecidableEq

/-- A Signal K delta message; `updates = none` models a message missing the
`"updates"` key. -/
structure SKMessage : Type where
  updates : Option (List SKUpdate)
  deriving DecidableEq

/-- The IEEE-754 double value of Python's `math.pi` (floats are exact
rationals). -/
def piFloat : ℚ := 884279719003555 / 281474976710656

/-- `SailingEfficiencyMonitor._rad_to_deg`: `None → 0.0`, otherwise
`radians * (180 / math.pi)`. -/
def rad_to_deg (radians : Option ℚ) : ℚ :=
  match radians with
  | none => 0
  | some r => r * (180 / piFloat)

/-- `SailingEfficiencyMonitor._ms_to_knots`: `None → 0.0`, otherwise
`ms * 1.94384`. -/
def ms_to_knots (ms : Option ℚ) : ℚ :=
  match ms with
  | none => 0
  | some v => v * 1.94384

/-- The mutable state touched by `_process_signalk_update`:
`self.current_data` and `self.data_buffer`. -/
structure MonitorState : Type where
  current : SailingData
  buffer : List SailingData
  deriving DecidableEq

/-- `self.data_buffer` is a `deque(maxlen=1000)`: appending beyond the
capacity evicts from the front. -/
def appendRing (buf : List SailingData) (s : SailingData) : List SailingData :=
  let b := buf ++ [s]
  if 1000 < b.length then b.drop (b.length - 1000) else b

/-- The body of the `for value in update.get('values', [])` loop of
`_process_signalk_update`: dispatch on the three known paths, ignore the
rest. -/
def applyValue (c : SailingData) (v : SKValue) : SailingData :=
  if v.path = some "navigation.speedThroughWater" then
    { c with stw := ms_to_knots v.value }
  else if v.path = some "environment.wind.angleTrueWater" then
    { c with twa := rad_to_deg v.value }
  else if v.path = some "environment.wind.speedTrue" then
    { c with tws := ms_to_knots v.value }
  else c

/-- `SailingEfficiencyMonitor._process_signalk_update` at time `now`
(`time.time()`): returns early if `'updates' not in data`; otherwise folds
every value of every update into `current_data`, stamps `current_data` with
`now` and appends a copy of it to the buffer. -/
def process_signalk_update (msg : SKMessage) (now : ℚ) (st : MonitorState) :
    MonitorState :=
  match msg.updates with
  | none => st
  | some ups =>
    let cur := ups.foldl (fun c u => u.values.foldl applyValue c) st.current
    let cur := { cur with timestamp := now }
    { current := cur,
      buffer := appendRing st.buffer
        ⟨cur.stw, cur.twa, cur.tws, cur.timestamp⟩ }

/-- `SailingEfficiencyMonitor._calculate_averaged_efficiency`: filters the
buffer to entries with `timestamp ≥ now - averaging_window`; on an empty
filter result returns `(0.0, 0.0, 0.0, 0.0, 0.0)`; otherwise averages each
field and calls `calculate_efficiency`.  When the latter returns a bare
float (calm branch), the tuple unpacking `efficiency, target = ...` raises
`TypeError`, which the surrounding `except` catches, returning zeros for
efficiency and target. -/
def calculate_averaged_efficiency (m : Polars.LinearNDInterpolatorModel)
    (buffer : List SailingData) (now averaging_window : ℚ) :
    ℚ × ℚ × ℚ × ℚ × ℚ :=
  let cutoff := now - averaging_window
  let recent := buffer.filter (fun d => cutoff ≤ d.timestamp)
  if recent = [] then (0, 0, 0, 0, 0)
  else
    let n : ℚ := recent.length
    let avg_stw := (recent.map SailingData.stw).sum / n
    let avg_twa := (recent.map SailingData.twa).sum / n
    let avg_tws := (recent.map SailingData.tws).sum / n
    match Polars.calculate_efficiency m avg_tws avg_twa avg_stw with
    | Polars.EffResult.pair e t => (e, t, avg_stw, avg_twa, avg_tws)
    | Polars.EffResult.scalar _ => (0, 0, avg_stw, avg_twa, avg_tws)

end SailingEfficiency

namespace Polars

/-- C2: For every numeric wind speed `tws` and every angle in `[0, 180]`,
`get_target_speed tws angle = get_target_speed tws (-angle)
 = get_target_speed tws (360 - angle)` — port/starboard symmetry through
the normalization `angle = |angle|`, then `angle = 360 - angle` when
`angle > 180`; holds for every interpolator model. -/
theorem get_target_speed_symm (m : LinearNDInterpolatorModel) (tws angle : ℚ)
    (h0 : 0 ≤ angle) (h180 : angle ≤ 180) :
    get_target_speed m tws angle = get_target_speed m tws (-angle) ∧
    get_target_speed m tws angle = get_target_speed m tws (360 - angle) := by
  have habs : |angle| = angle := abs_of_nonneg h0
  have hneg : |(-angle)| = angle := by rw [abs_neg, habs]
  have h360 : |360 - angle| = 360 - angle := by
    rw [abs_of_nonneg]; linarith
  constructor
  · unfold get_target_speed normalizeTwa
    rw [habs, hneg]
  · unfold get_target_speed normalizeTwa
    rw [habs, h360]
    rcases lt_or_eq_of_le h180 with h | h
    · rw [if_neg (by linarith), if_pos (by linarith)]
      ring_nf
    · subst h
      norm_num

/-- Witness for C2 at `tws = 12`, `angle = 90` over the concrete zero
interpolator model. -/
theorem get_target_speed_symm_witness :
    get_target_speed zeroInterpolator 12 90 =
      get_target_speed zeroInterpolator 12 (-90) ∧
    get_target_speed zeroInterpolator 12 90 =
      get_target_speed zeroInterpolator 12 (360 - 90) :=
  get_target_speed_symm zeroInterpolator 12 90 (by norm_num) (by norm_num)

/-- `Prod.fst : ℚ × ℚ → ℚ` is linear. -/
theorem fst_isLinearMap : IsLinearMap ℚ (Prod.fst : ℚ × ℚ → ℚ) :=
  ⟨fun _ _ => rfl, fun _ _ => rfl⟩

/-- Every sample point has wind-speed coordinate between 4 and 24 knots. -/
theorem polarPoints_fst_bounds : ∀ q ∈ polarPoints, 4 ≤ q.1 ∧ q.1 ≤ 24 := by
  decide

/-- Every point of the triangulated region has wind-speed coordinate
between 4 and 24 knots: the convex hull of the sample set stays between the
two vertical half-planes that contain all samples. -/
theorem mem_region_fst_bounds :
    ∀ p ∈ triangulatedRegion, 4 ≤ p.1 ∧ p.1 ≤ 24 := by
  have hsub : {q : ℚ × ℚ | q ∈ polarPoints} ⊆
      {p : ℚ × ℚ | 4 ≤ p.1} ∩ {p : ℚ × ℚ | p.1 ≤ 24} := by
    intro q hq
    exact polarPoints_fst_bounds q hq
  have hconv : Convex ℚ ({p : ℚ × ℚ | 4 ≤ p.1} ∩ {p : ℚ × ℚ | p.1 ≤ 24}) :=
    (convex_halfSpace_ge fst_isLinearMap 4).inter
      (convex_halfSpace_le fst_isLinearMap 24)
  intro p hp
  exact convexHull_min hsub hconv hp

/-- C9: a query whose (normalized) point lies outside the triangulated
region of the polar point set returns the configured fill value 0 — a
defined fallback, not an error and not an extrapolated value. -/
theorem get_target_speed_outside_region_fill (m : LinearNDInterpolatorModel)
    (tws twa : ℚ) (h : (tws, normalizeTwa twa) ∉ triangulatedRegion) :
    get_target_speed m tws twa = 0 :=
  m.fill_outside _ h

/-- Witness for C9 at the out-of-range query `tws = 30`, `twa = 90`
(every sample has `tws ≤ 24`, so `(30, 90)` lies outside the hull). -/
theorem get_target_speed_outside_region_fill_witness :
    (((30 : ℚ), normalizeTwa 90) ∉ triangulatedRegion) ∧
    get_target_speed zeroInterpolator 30 90 = 0 := by
  have hout : (((30 : ℚ), normalizeTwa 90) : ℚ × ℚ) ∉ triangulatedRegion := by
    intro hmem
    have hb := (mem_region_fst_bounds _ hmem).2
    norm_num at hb
  exact ⟨hout, get_target_speed_outside_region_fill zeroInterpolator 30 90 hout⟩

/-- C1 (code bug): at the calm input `tws = 0`, `twa = 0`, `stw = 5` the
target speed is the fill value 0 (the query lies outside the triangulated
region), so `calculate_efficiency` takes the `target <= 0.5` branch and
returns the bare float `0.0` — not the pair `(0.0, target)` the spec
states; callers that unpack two values (`_calculate_averaged_efficiency`,
`test_polars.py`) raise `TypeError` on this value.  Holds for every
interpolator model. -/
theorem calculate_efficiency_calm_returns_bare_scalar
    (m : LinearNDInterpolatorModel) :
    calculate_efficiency m 0 0 5 = EffResult.scalar 0 ∧
    ∀ e t : ℚ, calculate_efficiency m 0 0 5 ≠ EffResult.pair e t := by
  have hout : (((0 : ℚ), normalizeTwa 0) : ℚ × ℚ) ∉ triangulatedRegion := by
    intro hmem
    have hb := (mem_region_fst_bounds _ hmem).1
    norm_num at hb
  have ht : get_target_speed m 0 0 = 0 := m.fill_outside _ hout
  constructor
  · simp [calculate_efficiency, ht]
  · intro e t
    simp [calculate_efficiency, ht]

end Polars

namespace SailingEfficiency

/-- Every element of the subsequent-frame list starts with the byte
`seq <<< 5 ||| frameIndex` for some frame index. -/
theorem mem_subsequentFrames_head (seq : ℕ) (data : List ℕ) :
    ∀ (fuel offset frame_num : ℕ) (g : List ℕ),
      g ∈ subsequentFrames seq data fuel offset frame_num →
      ∃ i, g.head? = some ((seq <<< 5) ||| i) := by
  intro fuel
  induction fuel with
  | zero =>
    intro offset frame_num g hg
    exact absurd hg (List.not_mem_nil g)
  | succ n ih =>
    intro offset frame_num g hg
    rw [subsequentFrames] at hg
    by_cases h : offset < data.length
    · rw [if_pos h] at hg
      rcases List.mem_cons.mp hg with rfl | hg'
      · exact ⟨frame_num, rfl⟩
      · exact ih (offset + 7) (frame_num + 1) g hg'
    · rw [if_neg h] at hg
      exact absurd hg (List.not_mem_nil g)

/-- C4: every frame produced by `_build_fast_packet_frames` carries the CAN
identifier `(priority&0x7)<<26 | (dataPage&0x1)<<24 | pf<<16 | ps<<8 |
sourceAddress` with `pf = (pgn>>8)&0xFF`, `dataPage = (pgn>>16)&0x1`, and
`ps = pgn&0xFF` when `pf ≥ 240`, else `ps = 255`. -/
theorem build_fast_packet_frames_can_id (source_address pgn : ℕ)
    (data : List ℕ) (priority c : ℕ) (f : ℕ × List ℕ)
    (hf : f ∈ (build_fast_packet_frames source_address pgn data priority c).1) :
    f.1 = ((priority &&& 0x07) <<< 26) ||| (((pgn >>> 16) &&& 0x01) <<< 24) |||
      (((pgn >>> 8) &&& 0xFF) <<< 16) |||
      ((if 240 ≤ (pgn >>> 8) &&& 0xFF then pgn &&& 0xFF else 255) <<< 8) |||
      source_address := by
  simp only [build_fast_packet_frames, List.mem_cons, List.mem_map] at hf
  rcases hf with rfl | ⟨g, _, rfl⟩
  · rfl
  · rfl

/-- Witness for C4 at PGN 127489, priority 6, source address 42, counter 0,
on a zero-filled 26-byte payload: the first frame's identifier is 435290410
= `0x19F2012A`. -/
theorem build_fast_packet_frames_can_id_witness :
    (((435290410 : ℕ), ([0, 26, 0, 0, 0, 0, 0, 0] : List ℕ)) ∈
      (build_fast_packet_frames 42 127489 (List.replicate 26 0) 6 0).1) ∧
    (435290410 : ℕ) =
      ((6 &&& 0x07) <<< 26) ||| (((127489 >>> 16) &&& 0x01) <<< 24) |||
      (((127489 >>> 8) &&& 0xFF) <<< 16) |||
      ((if 240 ≤ (127489 >>> 8) &&& 0xFF then 127489 &&& 0xFF else 255) <<< 8) |||
      42 :=
  ⟨by decide,
   build_fast_packet_frames_can_id 42 127489 (List.replicate 26 0) 6 0
     ((435290410 : ℕ), ([0, 26, 0, 0, 0, 0, 0, 0] : List ℕ)) (by decide)⟩

/-- C5 (amended): for PGN 127489 (priority 6, source address 42) the frames
all carry identifier 435290410 = `(6<<26)|(1<<24)|(0xF2<<16)|(0x01<<8)|42`:
`pf = 0xF2 ≥ 240` is PDU2 format, so `ps = pgn & 0xFF = 0x01` (the group
extension), not the broadcast value 255. -/
theorem pgn_127489_can_id_actual :
    ((build_fast_packet_frames 42 127489 (build_pgn_127489 100 0) 6 0).1.map
        Prod.fst) = List.replicate 4 435290410 ∧
    ((127489 >>> 8) &&& 0xFF) = 0xF2 ∧
    ((127489 >>> 16) &&& 0x01) = 1 ∧
    (127489 &&& 0xFF) = 0x01 ∧
    (435290410 : ℕ) =
      ((6 <<< 26) ||| (1 <<< 24) ||| (0xF2 <<< 16) ||| (0x01 <<< 8) ||| 42) := by
  decide

/-- C5 (counterexample): the identifier actually attached to every frame of
the PGN 127489 segmentation differs from the claimed
`(6<<26)|(1<<24)|(0xF2<<16)|(255<<8)|42`, and `ps` is `pgn & 0xFF = 1`,
not 255. -/
theorem pgn_127489_can_id_claim_false :
    ((build_fast_packet_frames 42 127489 (build_pgn_127489 100 0) 6 0).1.map
        Prod.fst) = List.replicate 4 435290410 ∧
    (435290410 : ℕ) ≠
      ((6 <<< 26) ||| (1 <<< 24) ||| (0xF2 <<< 16) ||| (255 <<< 8) ||| 42) ∧
    (127489 &&& 0xFF) ≠ 255 := by
  decide

/-- C6: the sequence counter contract.  For every call with counter `c < 8`:
the updated counter is `(c+1) % 8` (hence again below 8), and every frame of
the call's record starts with a byte of the form `c <<< 5 ||| frameIndex`,
i.e. all frames share the one sequence value `c`.  And from a fresh gateway
(counter 0), nine consecutive calls on the PGN 127489 payload observe the
sequence values 0, 1, ..., 7, 0. -/
theorem sequence_counter_contract :
    (∀ source_address pgn data priority c, c < 8 →
      (build_fast_packet_frames source_address pgn data priority c).2 =
          (c + 1) % 8 ∧
      (build_fast_packet_frames source_address pgn data priority c).2 < 8 ∧
      ∀ f ∈ (build_fast_packet_frames source_address pgn data priority c).1,
        ∃ i, f.2.head? = some ((c <<< 5) ||| i)) ∧
    sequenceTrace 42 127489 (build_pgn_127489 100 0) 6 9 0 =
      [0, 1, 2, 3, 4, 5, 6, 7, 0] := by
  constructor
  · intro source_address pgn data priority c hc
    refine ⟨?_, ?_, ?_⟩
    · show (c + 1) &&& 0x07 = (c + 1) % 8
      interval_cases c <;> rfl
    · show (c + 1) &&& 0x07 < 8
      have h7 : (c + 1) &&& 0x07 ≤ 0x07 := Nat.and_le_right
      omega
    · intro f hf
      simp only [build_fast_packet_frames, List.mem_cons, List.mem_map] at hf
      rcases hf with rfl | ⟨g, hg, rfl⟩
      · exact ⟨0, rfl⟩
      · exact mem_subsequentFrames_head c data data.length 6 1 g hg
  · decide

end SailingEfficiency


namespace SailingEfficiency

/-- C7: segmentation of a 26-byte payload.  The record is exactly four
8-byte frames: the first carries the sequence/index byte `c<<5|0`, the
total length 26 and a 6-byte chunk; the subsequent frames carry
`c<<5|frameIndex` (index incrementing by 1) and 7-byte chunks, the last
frame padded with a trailing `0xFF`; and decoding the frames in order,
stripped of their headers, reconstructs the payload exactly. -/
theorem fast_packet_frames_of_26_bytes (source_address pgn priority c : ℕ)
    (data : List ℕ) (h : data.length = 26) :
    ((build_fast_packet_frames source_address pgn data priority c).1.map
        Prod.snd) =
      [ ((c <<< 5) ||| 0) :: 26 :: data.take 6,
        ((c <<< 5) ||| 1) :: (data.drop 6).take 7,
        ((c <<< 5) ||| 2) :: (data.drop 13).take 7,
        ((c <<< 5) ||| 3) :: ((data.drop 20).take 7 ++ [0xFF]) ] ∧
    (∀ f ∈ (build_fast_packet_frames source_address pgn data priority c).1,
      f.2.length = 8) ∧
    reassemble ((build_fast_packet_frames source_address pgn data priority
      c).1.map Prod.snd) = data := by
  have hlen6 : ((data.drop 6).take 7).length = 7 := by simp [h]
  have hlen13 : ((data.drop 13).take 7).length = 7 := by simp [h]
  have hlen20 : ((data.drop 20).take 7).length = 6 := by simp [h]
  have hE : ((build_fast_packet_frames source_address pgn data priority
      c).1.map Prod.snd) =
      [ ((c <<< 5) ||| 0) :: 26 :: data.take 6,
        ((c <<< 5) ||| 1) :: (data.drop 6).take 7,
        ((c <<< 5) ||| 2) :: (data.drop 13).take 7,
        ((c <<< 5) ||| 3) :: ((data.drop 20).take 7 ++ [0xFF]) ] := by
    simp only [build_fast_packet_frames, List.map_cons, List.map_map]
    norm_num [subsequentFrames, h, hlen6, hlen13, hlen20, Function.comp]
  refine ⟨hE, ?_, ?_⟩
  · intro f hf
    have hsnd : f.2 ∈ ((build_fast_packet_frames source_address pgn data
        priority c).1.map Prod.snd) := List.mem_map_of_mem Prod.snd hf
    rw [hE] at hsnd
    simp only [List.mem_cons, List.not_mem_nil, or_false] at hsnd
    rcases hsnd with h1 | h1 | h1 | h1 <;> rw [h1] <;>
      norm_num [hlen6, hlen13, hlen20, h]
  · rw [hE]
    have hgetD : ((((c <<< 5) ||| 0) :: 26 :: data.take 6 : List ℕ).getD 1 0)
        = 26 := rfl
    simp only [reassemble, hgetD, List.map_cons, List.map_nil,
      List.flatten_cons, List.flatten_nil, List.drop_succ_cons,
      List.drop_zero, List.append_nil, List.drop_one]
    have hD : (data.drop 20).take 7 = data.drop 20 :=
      List.take_of_length_le (by simp [h])
    have h2 : (data.drop 13).take 7 ++ data.drop 20 = data.drop 13 := by
      have hdd : (data.drop 13).drop 7 = data.drop 20 := by
        rw [List.drop_drop]
      rw [← hdd, List.take_append_drop]
    have h3 : (data.drop 6).take 7 ++ data.drop 13 = data.drop 6 := by
      have hdd : (data.drop 6).drop 7 = data.drop 13 := by
        rw [List.drop_drop]
      rw [← hdd, List.take_append_drop]
    have h4 : data.take 6 ++ data.drop 6 = data := List.take_append_drop 6 data
    have hX : data.take 6 ++ ((data.drop 6).take 7 ++ ((data.drop 13).take 7 ++
        (data.drop 20).take 7)) = data := by
      rw [hD, h2, h3, h4]
    calc (data.take 6 ++ ((data.drop 6).take 7 ++ ((data.drop 13).take 7 ++
        (((data.drop 20).take 7 ++ [255]))))).take 26
        = ((data.take 6 ++ ((data.drop 6).take 7 ++ ((data.drop 13).take 7 ++
            (data.drop 20).take 7))) ++ [255]).take 26 := by
          simp [List.append_assoc]
      _ = (data ++ [255]).take 26 := by rw [hX]
      _ = data := by rw [← h, List.take_left]

/-- Witness for C7 on the concrete 26-byte payload `[0, 1, ..., 25]` with
sequence counter 0. -/
theorem fast_packet_frames_of_26_bytes_witness :
    ((build_fast_packet_frames 42 127489 (List.range 26) 6 0).1.map
        Prod.snd) =
      [ ((0 <<< 5) ||| 0) :: 26 :: (List.range 26).take 6,
        ((0 <<< 5) ||| 1) :: ((List.range 26).drop 6).take 7,
        ((0 <<< 5) ||| 2) :: ((List.range 26).drop 13).take 7,
        ((0 <<< 5) ||| 3) :: (((List.range 26).drop 20).take 7 ++ [0xFF]) ] ∧
    (∀ f ∈ (build_fast_packet_frames 42 127489 (List.range 26) 6 0).1,
      f.2.length = 8) ∧
    reassemble ((build_fast_packet_frames 42 127489 (List.range 26) 6
      0).1.map Prod.snd) = List.range 26 :=
  fast_packet_frames_of_26_bytes 42 127489 6 0 (List.range 26) (by simp)

/-- C8: `_build_pgn_127489` produces exactly 26 bytes in the fixed
little-endian layout of the spec's table, with byte 24 the clamped,
truncated engine load (never above 125) and byte 25 the torque N/A marker
`0x7F`. -/
theorem build_pgn_127489_layout (engine_load_percent : ℚ)
    (engine_instance : ℕ) :
    build_pgn_127489 engine_load_percent engine_instance =
      [ engine_instance, 0xFF, 0xFF, 0xFF, 0xFF, 0xFF, 0xFF, 0xFF, 0xFF,
        0xFF, 0x7F, 0xFF, 0xFF, 0xFF, 0xFF, 0xFF, 0xFF, 0xFF, 0xFF,
        0xFF, 0xFF, 0xFF, 0xFF, 0x00,
        (⌊min (max engine_load_percent 0) 125⌋).toNat, 0x7F ] ∧
    (build_pgn_127489 engine_load_percent engine_instance).length = 26 ∧
    (⌊min (max engine_load_percent 0) 125⌋).toNat ≤ 125 := by
  refine ⟨rfl, rfl, ?_⟩
  have h1 : min (max engine_load_percent 0) 125 ≤ 125 := min_le_right _ _
  have h2 : (⌊min (max engine_load_percent 0) 125⌋ : ℤ) ≤ 125 := by
    calc ⌊min (max engine_load_percent 0) 125⌋ ≤ ⌊(125 : ℚ)⌋ :=
          Int.floor_le_floor h1
      _ = 125 := by norm_num
  omega

/-- C3 (counterexample): a buffer holding one all-zero sample inside the
window produces exactly the same snapshot tuple `(0,0,0,0,0)` as the empty
buffer, so the empty-filter result is not distinguishable from zero-valued
telemetry. -/
theorem averaged_empty_equals_zero_telemetry :
    calculate_averaged_efficiency Polars.zeroInterpolator
        [{ stw := 0, twa := 0, tws := 0, timestamp := 10 }] 10 5 =
      calculate_averaged_efficiency Polars.zeroInterpolator [] 10 5 ∧
    ([({ stw := 0, twa := 0, tws := 0, timestamp := 10 } : SailingData)].filter
        (fun d => (10 : ℚ) - 5 ≤ d.timestamp)) ≠ [] := by
  constructor
  · have hL : calculate_averaged_efficiency Polars.zeroInterpolator
        [{ stw := 0, twa := 0, tws := 0, timestamp := 10 }] 10 5 =
        (0, 0, 0, 0, 0) := by
      norm_num [calculate_averaged_efficiency, List.filter,
        Polars.calculate_efficiency, Polars.get_target_speed,
        Polars.normalizeTwa, Polars.zeroInterpolator]
    have hR : calculate_averaged_efficiency Polars.zeroInterpolator [] 10 5 =
        (0, 0, 0, 0, 0) := by
      norm_num [calculate_averaged_efficiency, List.filter]
    rw [hL, hR]
  · norm_num [List.filter]

/-- C3 (amended): the snapshot averages exactly the samples with
`timestamp ≥ now - window` (arithmetic mean of each field, no weighting),
and on an empty filter result returns the plain zero tuple
`(0, 0, 0, 0, 0)` — which callers cannot distinguish from zero-valued
telemetry. -/
theorem calculate_averaged_efficiency_mean_and_empty
    (m : Polars.LinearNDInterpolatorModel) (buffer : List SailingData)
    (now w : ℚ) :
    (buffer.filter (fun d => now - w ≤ d.timestamp) = [] →
      calculate_averaged_efficiency m buffer now w = (0, 0, 0, 0, 0)) ∧
    (buffer.filter (fun d => now - w ≤ d.timestamp) ≠ [] →
      (calculate_averaged_efficiency m buffer now w).2.2 =
        (((buffer.filter (fun d => now - w ≤ d.timestamp)).map
            SailingData.stw).sum /
          ((buffer.filter (fun d => now - w ≤ d.timestamp)).length : ℚ),
         ((buffer.filter (fun d => now - w ≤ d.timestamp)).map
            SailingData.twa).sum /
          ((buffer.filter (fun d => now - w ≤ d.timestamp)).length : ℚ),
         ((buffer.filter (fun d => now - w ≤ d.timestamp)).map
            SailingData.tws).sum /
          ((buffer.filter (fun d => now - w ≤ d.timestamp)).length : ℚ))) := by
  constructor
  · intro he
    simp only [calculate_averaged_efficiency]
    rw [if_pos he]
  · intro hne
    simp only [calculate_averaged_efficiency]
    rw [if_neg hne]
    split <;> rfl

/-- Witness for C3's amended statement: the empty buffer snapshots to the
zero tuple, and a one-sample buffer snapshots to that sample's fields. -/
theorem calculate_averaged_efficiency_mean_and_empty_witness :
    calculate_averaged_efficiency Polars.zeroInterpolator [] 10 5 =
      (0, 0, 0, 0, 0) ∧
    (calculate_averaged_efficiency Polars.zeroInterpolator
        [{ stw := 1, twa := 2, tws := 3, timestamp := 10 }] 10 5).2.2 =
      ((([({ stw := 1, twa := 2, tws := 3, timestamp := 10 } : SailingData)].filter
          (fun d => (10 : ℚ) - 5 ≤ d.timestamp)).map SailingData.stw).sum /
        (([({ stw := 1, twa := 2, tws := 3, timestamp := 10 } : SailingData)].filter
          (fun d => (10 : ℚ) - 5 ≤ d.timestamp)).length : ℚ),
       (([({ stw := 1, twa := 2, tws := 3, timestamp := 10 } : SailingData)].filter
          (fun d => (10 : ℚ) - 5 ≤ d.timestamp)).map SailingData.twa).sum /
        (([({ stw := 1, twa := 2, tws := 3, timestamp := 10 } : SailingData)].filter
          (fun d => (10 : ℚ) - 5 ≤ d.timestamp)).length : ℚ),
       (([({ stw := 1, twa := 2, tws := 3, timestamp := 10 } : SailingData)].filter
          (fun d => (10 : ℚ) - 5 ≤ d.timestamp)).map SailingData.tws).sum /
        (([({ stw := 1, twa := 2, tws := 3, timestamp := 10 } : SailingData)].filter
          (fun d => (10 : ℚ) - 5 ≤ d.timestamp)).length : ℚ)) :=
  ⟨(calculate_averaged_efficiency_mean_and_empty Polars.zeroInterpolator []
      10 5).1 rfl,
   (calculate_averaged_efficiency_mean_and_empty Polars.zeroInterpolator
      [{ stw := 1, twa := 2, tws := 3, timestamp := 10 }] 10 5).2
      (by norm_num [List.filter])⟩

/-- Folding `applyValue` over value entries that all carry unknown paths
leaves the current sample unchanged. -/
theorem foldl_applyValue_unknown (vs : List SKValue)
    (h : ∀ v ∈ vs,
      v.path ≠ some "navigation.speedThroughWater" ∧
      v.path ≠ some "environment.wind.angleTrueWater" ∧
      v.path ≠ some "environment.wind.speedTrue") :
    ∀ c, vs.foldl applyValue c = c := by
  induction vs with
  | nil => intro c; rfl
  | cons v vs ih =>
    intro c
    have hv := h v (List.mem_cons_self v vs)
    have happ : applyValue c v = c := by
      unfold applyValue
      rw [if_neg hv.1, if_neg hv.2.1, if_neg hv.2.2]
    rw [List.foldl_cons, happ]
    exact ih (fun v' hv' => h v' (List.mem_cons_of_mem _ hv')) c

/-- Folding whole updates whose value entries all carry unknown paths
leaves the current sample unchanged. -/
theorem foldl_updates_unknown (l : List SKUpdate)
    (h : ∀ u ∈ l, ∀ v ∈ u.values,
      v.path ≠ some "navigation.speedThroughWater" ∧
      v.path ≠ some "environment.wind.angleTrueWater" ∧
      v.path ≠ some "environment.wind.speedTrue") :
    ∀ c, l.foldl (fun c u => u.values.foldl applyValue c) c = c := by
  induction l with
  | nil => intro c; rfl
  | cons u l ih =>
    intro c
    rw [List.foldl_cons,
      foldl_applyValue_unknown u.values (h u (List.mem_cons_self u l)) c]
    exact ih (fun u' hu' => h u' (List.mem_cons_of_mem _ hu')) c

/-- C10 (amended): a message missing the `updates` key is ignored entirely
(state unchanged, no exception — totality of the embedding).  A message
whose value entries carry only unknown paths does not raise and leaves
`stw`/`twa`/`tws` unchanged, but it still stamps `current_data` with the
current time and appends a sample (the unchanged readings, newly
timestamped) to the aggregation buffer. -/
theorem process_signalk_update_malformed_ignored :
    (∀ (now : ℚ) (st : MonitorState),
      process_signalk_update ⟨none⟩ now st = st) ∧
    (∀ (ups : List SKUpdate) (now : ℚ) (st : MonitorState),
      (∀ u ∈ ups, ∀ v ∈ u.values,
        v.path ≠ some "navigation.speedThroughWater" ∧
        v.path ≠ some "environment.wind.angleTrueWater" ∧
        v.path ≠ some "environment.wind.speedTrue") →
      process_signalk_update ⟨some ups⟩ now st =
        { current := { st.current with timestamp := now },
          buffer := appendRing st.buffer
            ⟨st.current.stw, st.current.twa, st.current.tws, now⟩ }) := by
  constructor
  · intro now st
    rfl
  · intro ups now st hunk
    simp only [process_signalk_update, foldl_updates_unknown ups hunk]

/-- C10 (counterexample): a message whose single value entry carries an
unknown path does change the state: the buffer grows by one sample. -/
theorem process_unknown_path_changes_state :
    process_signalk_update ⟨some [⟨[⟨some "unknown.path", some 1⟩]⟩]⟩ 5
        ⟨⟨0, 0, 0, 0⟩, []⟩ ≠ ⟨⟨0, 0, 0, 0⟩, []⟩ ∧
    (process_signalk_update ⟨some [⟨[⟨some "unknown.path", some 1⟩]⟩]⟩ 5
        ⟨⟨0, 0, 0, 0⟩, []⟩).buffer.length = 1 := by
  decide

end SailingEfficiency
